import Mathlib

/-!
Shallow embedding of the maritime simulator core
(src/007_maritime_simulator2030/src): the AIS ingest client
(ais_client.py), the corridor (SMR) and waypoint (ammonia) vessel
simulators (simulation_smr.py, simulation_ammonia.py) and the
communication scenario controller (scenario_controller.py).

Machine floats are modelled by exact rationals; timestamps by naturals
(seconds); random draws and the trigonometric geodesy-engine results
(bearings, haversine distances, predicted positions) are supplied as
explicit oracle inputs, so every definition is executable.
-/

namespace Maritime

/-! ## AIS ingest client (ais_client.py) -/

/-- VesselState dataclass (ais_client.py lines 41-95).  Floats are ℚ,
datetimes are ℕ seconds, optional fields are Option. -/
structure VesselState where
  mmsi : String
  vessel_name : String
  vessel_type : String
  latitude : ℚ
  longitude : ℚ
  course : ℚ
  speed : ℚ
  heading : Option ℚ := none
  timestamp : ℕ := 0
  position_accuracy : ℤ := 1
  length : Option ℚ := none
  width : Option ℚ := none
  draught : Option ℚ := none
  destination : Option String := none
  eta : Option ℕ := none
  nav_status : Option ℤ := none
  is_simulated : Bool := false
  data_source : String := "AIS"
  deriving DecidableEq

/-- One decoded PositionReport envelope: MetaData.MMSI and ShipName plus
the Message.PositionReport fields the handler reads; absent keys are
none (message.get defaults apply in the handler). -/
structure PositionReportMsg where
  mmsi : String
  ship_name : Option String := none
  ship_type : Option ℤ := none
  latitude : Option ℚ := none
  longitude : Option ℚ := none
  cog : Option ℚ := none
  sog : Option ℚ := none
  true_heading : Option ℚ := none
  nav_status : Option ℤ := none
  position_accuracy : Option ℤ := none
  deriving DecidableEq

/-- AUTONOMOUS_SHIP_MMSI_LIST (ais_client.py lines 108-114). -/
def AUTONOMOUS_SHIP_MMSI_LIST : List String :=
  ["257646000", "259005610", "258022650", "352986205", "440326000"]

/-- AUTONOMOUS_SHIP_TYPES: AIS ship type codes 70..89 (lines 119-120). -/
def AUTONOMOUS_SHIP_TYPES : List ℤ :=
  [70, 71, 72, 73, 74, 75, 76, 77, 78, 79,
   80, 81, 82, 83, 84, 85, 86, 87, 88, 89]

/-- Constructor arguments of AISStreamClient that the position-report
handler consults (lines 122-168). -/
structure ClientConfig where
  use_ship_type_fallback : Bool := false
  max_vessels : ℕ := 20
  max_queue_size : ℕ := 1000
  deriving DecidableEq

/-- The stats dictionary of the client (lines 159-164). -/
structure ClientStats where
  messages_received : ℕ := 0
  messages_filtered : ℕ := 0
  parse_errors : ℕ := 0
  last_update : Option ℕ := none
  deriving DecidableEq

/-- Mutable client state touched by _handle_position_report: the
vessel cache (an insertion-ordered dict), the bounded message queue
(head = oldest) and the stats dictionary. -/
structure ClientState where
  vessel_cache : List (String × VesselState) := []
  message_queue : List VesselState := []
  stats : ClientStats := {}
  deriving DecidableEq

/-- Dict lookup in the vessel cache. -/
def cacheFind (c : List (String × VesselState)) (k : String) :
    Option VesselState :=
  match c with
  | [] => none
  | (k0, v0) :: rest => if k0 = k then some v0 else cacheFind rest k

/-- Dict assignment self.vessel_cache[mmsi] = vessel: update in place
when the key exists, append otherwise (Python dict insertion order). -/
def cacheInsert (c : List (String × VesselState)) (k : String)
    (v : VesselState) : List (String × VesselState) :=
  match c with
  | [] => [(k, v)]
  | (k0, v0) :: rest =>
      if k0 = k then (k0, v) :: rest else (k0, v0) :: cacheInsert rest k v

/-- Fresh VesselState created on first observation (lines 270-281):
name from MetaData.ShipName with an Unknown fallback, position and
kinematics zeroed. -/
def newVessel (m : PositionReportMsg) (is_autonomous : Bool) :
    VesselState :=
  { mmsi := m.mmsi
    vessel_name := (Option.getD m.ship_name ("Unknown-" ++ m.mmsi))
    vessel_type :=
      if is_autonomous then "Autonomous Ship" else "Cargo/Tanker"
    latitude := 0
    longitude := 0
    course := 0
    speed := 0
    data_source := "AIS" }

/-- Bounded-queue put of _handle_position_report (lines 307-313): when
the queue is full the oldest message is removed first (Queue(maxsize=N)
is full when N > 0 and the size has reached N; maxsize 0 means
unbounded in Python). -/
def queuePut (maxsize : ℕ) (q : List VesselState) (v : VesselState) :
    List VesselState :=
  if 0 < maxsize ∧ maxsize ≤ q.length then q.drop 1 ++ [v]
  else q ++ [v]

/-- AISStreamClient._handle_position_report (lines 242-328) as a state
transformer; now is the datetime.utcnow() value used for the record
timestamp. -/
def handlePositionReport (cfg : ClientConfig) (st : ClientState)
    (m : PositionReportMsg) (now : ℕ) : ClientState :=
  let ship_type := Option.getD m.ship_type 0
  let is_autonomous := m.mmsi ∈ AUTONOMOUS_SHIP_MMSI_LIST
  let is_cargo_tanker_type :=
    if cfg.use_ship_type_fallback then ship_type ∈ AUTONOMOUS_SHIP_TYPES
    else False
  if ¬is_autonomous ∧ ¬is_cargo_tanker_type then
    { st with stats :=
        { st.stats with
            messages_filtered := st.stats.messages_filtered + 1 } }
  else if ¬is_autonomous ∧ cfg.max_vessels ≤ st.vessel_cache.length then
    { st with stats :=
        { st.stats with
            messages_filtered := st.stats.messages_filtered + 1 } }
  else
    -- create-or-fetch: a brand-new vessel is written into the cache
    -- immediately (line 281), before any position validation
    let vessel0 := match cacheFind st.vessel_cache m.mmsi with
      | some v => v
      | none => newVessel m is_autonomous
    let cache1 := match cacheFind st.vessel_cache m.mmsi with
      | some _ => st.vessel_cache
      | none => cacheInsert st.vessel_cache m.mmsi vessel0
    let new_latitude := Option.getD m.latitude vessel0.latitude
    let new_longitude := Option.getD m.longitude vessel0.longitude
    if new_latitude = 0 ∧ new_longitude = 0 then
      { st with
          vessel_cache := cache1
          stats :=
            { st.stats with
                messages_filtered := st.stats.messages_filtered + 1 } }
    else
      let vessel1 : VesselState :=
        { vessel0 with
            latitude := new_latitude
            longitude := new_longitude
            course := Option.getD m.cog vessel0.course
            speed := Option.getD m.sog vessel0.speed
            heading := m.true_heading
            nav_status := m.nav_status
            position_accuracy := Option.getD m.position_accuracy 1
            timestamp := now }
      { st with
          vessel_cache := cacheInsert cache1 m.mmsi vessel1
          message_queue := queuePut cfg.max_queue_size st.message_queue vessel1
          stats := { st.stats with last_update := some now } }

/-- The admission filter of _handle_position_report (lines 252-264):
the message survives the two early returns exactly when it is from an
allowlisted autonomous vessel, or fallback filtering admits its ship
type and the cache is below capacity. -/
def admitsMessage (cfg : ClientConfig) (st : ClientState)
    (m : PositionReportMsg) : Bool :=
  let is_autonomous := decide (m.mmsi ∈ AUTONOMOUS_SHIP_MMSI_LIST)
  let is_cargo_tanker_type :=
    cfg.use_ship_type_fallback &&
      decide (Option.getD m.ship_type 0 ∈ AUTONOMOUS_SHIP_TYPES)
  (is_autonomous || is_cargo_tanker_type) &&
    (is_autonomous || decide (st.vessel_cache.length < cfg.max_vessels))

/-- The (new_latitude, new_longitude) pair the handler derives at lines
290-291: the message values, defaulting to the fields of the cached
(or freshly created) vessel. -/
def reportedPosition (st : ClientState) (m : PositionReportMsg) :
    ℚ × ℚ :=
  let vessel0 := Option.getD (cacheFind st.vessel_cache m.mmsi)
    (newVessel m (decide (m.mmsi ∈ AUTONOMOUS_SHIP_MMSI_LIST)))
  (Option.getD m.latitude vessel0.latitude,
    Option.getD m.longitude vessel0.longitude)

/-- The null-island sentinel test of line 294. -/
def isNullIsland (p : ℚ × ℚ) : Bool := decide (p.1 = 0) && decide (p.2 = 0)

/-- The vessel record the handler writes back and enqueues on the
admitted, valid-position path (lines 298-305). -/
def updatedVessel (st : ClientState) (m : PositionReportMsg) (now : ℕ) :
    VesselState :=
  let vessel0 := Option.getD (cacheFind st.vessel_cache m.mmsi)
    (newVessel m (decide (m.mmsi ∈ AUTONOMOUS_SHIP_MMSI_LIST)))
  { vessel0 with
      latitude := Option.getD m.latitude vessel0.latitude
      longitude := Option.getD m.longitude vessel0.longitude
      course := Option.getD m.cog vessel0.course
      speed := Option.getD m.sog vessel0.speed
      heading := m.true_heading
      nav_status := m.nav_status
      position_accuracy := Option.getD m.position_accuracy 1
      timestamp := now }

/-- Outcome of one connect() call as seen by reconnect_with_backoff:
the connect either fails outright, or succeeds (websockets.connect
establishes the link, which resets reconnect_attempts to 0 at line 192
and sends the subscribe frame) and then either is still connected when
connect() returns (the loop returns) or has dropped again (the loop
continues with the counter reset). -/
inductive ConnectOutcome where
  | fail
  | succHold
  | succDrop
  deriving DecidableEq

/-- Backoff delay min(2 ** attempts, 60) of line 420. -/
def backoffDelay (attempts : ℕ) : ℕ := min (2 ^ attempts) 60

/-- AISStreamClient.reconnect_with_backoff (lines 413-438) over an
explicit list of connect outcomes, from a given reconnect_attempts
value.  max_reconnect_attempts is 10 (line 153).  Returns the list of
sleeps performed, the final reconnect_attempts and the final running
flag (set to False at line 438 when the budget is exhausted; left True
by the early return on success).  An exhausted outcome list with budget
remaining returns the still-running state unchanged. -/
def reconnectWithBackoff (outcomes : List ConnectOutcome)
    (attempts : ℕ) : List ℕ × ℕ × Bool :=
  match outcomes with
  | [] => if attempts < 10 then ([], attempts, true) else ([], attempts, false)
  | o :: rest =>
      if attempts < 10 then
        let a := attempts + 1
        let d := backoffDelay a
        match o with
        | .fail =>
            let r := reconnectWithBackoff rest a
            (d :: r.1, r.2)
        | .succHold => ([d], 0, true)
        | .succDrop =>
            let r := reconnectWithBackoff rest 0
            (d :: r.1, r.2)
      else ([], attempts, false)

/-! ## Shared kinematics helpers of the vessel simulators

Both step functions adjust speed with np.sign-limited increments and
course with the expression `(target - course + 180) % 360 - 180`
followed by a final `% 360`.  Python float `%` with a positive modulus
returns a value in [0, modulus), which is x - 360*floor(x/360). -/

/-- np.sign on rationals. -/
def qsign (x : ℚ) : ℚ := if 0 < x then 1 else if x < 0 then -1 else 0

/-- Python `x % 360` for rationals. -/
def qmod360 (x : ℚ) : ℚ := x - 360 * ⌊x / 360⌋

/-- Signed shortest rotation from course a to course b in degrees,
`(b - a + 180) % 360 - 180`, as both step functions compute it. -/
def shortestRotation (a b : ℚ) : ℚ := qmod360 (b - a + 180) - 180

/-- The acceleration-limited speed update (simulation_ammonia.py lines
248-255): move toward the target by at most maxChange knots. -/
def limitSpeed (target current maxChange : ℚ) : ℚ :=
  if maxChange < |target - current| then
    current + qsign (target - current) * maxChange
  else target

/-- The turn-rate-limited course update (simulation_ammonia.py lines
261-272, simulation_smr.py lines 334-344): rotate toward the target
along the shortest sign by at most maxChange degrees, then normalise
with `% 360`. -/
def limitCourse (target current maxChange : ℚ) : ℚ :=
  let course_diff := shortestRotation current target
  let c :=
    if maxChange < |course_diff| then
      current + qsign course_diff * maxChange
    else target
  qmod360 c

/-! ## Waypoint-route (ammonia) simulator (simulation_ammonia.py) -/

/-- Waypoint dataclass (simulation_ammonia.py lines 28-34). -/
structure Waypoint where
  latitude : ℚ
  longitude : ℚ
  name : String := ""
  arrival_speed_knots : ℚ := 15
  deriving DecidableEq

instance : Inhabited Waypoint := ⟨{ latitude := 0, longitude := 0 }⟩

/-- AmmoniaVesselConfig fields the step function reads (lines 47-72). -/
structure AmmoniaVesselConfig where
  route : List Waypoint
  max_speed_knots : ℚ := 19.5
  cruise_speed_knots : ℚ := 16
  min_speed_knots : ℚ := 10
  signal_blackout_probability : ℚ := 0.05
  blackout_min_duration_sec : ℕ := 60
  blackout_max_duration_sec : ℕ := 600
  deriving DecidableEq

/-- Mutable per-vessel state of AmmoniaVesselSimulator (lines 94-104),
with the kinematic fields of the vessel_state record inlined. -/
structure AmmoniaState where
  current_waypoint_idx : ℕ
  latitude : ℚ
  longitude : ℚ
  course : ℚ
  speed : ℚ
  heading : ℚ
  in_blackout : Bool := false
  blackout_start_time : Option ℕ := none
  blackout_duration_sec : ℕ := 0
  simulation_time : ℕ := 0
  deriving DecidableEq

/-- Oracle inputs of one ammonia step: the blackout random draws, the
geodesy-engine results (calculate_bearing, calculate_distance_haversine
to the target waypoint) and the predict_position output. -/
structure AmmoniaObs where
  blackout_draw : ℚ := 1
  blackout_duration_draw : ℕ := 0
  target_course : ℚ
  distance_to_target : ℚ
  pred_latitude : ℚ
  pred_longitude : ℚ
  deriving DecidableEq

/-- The blackout bookkeeping of AmmoniaVesselSimulator.step (lines
182-200), given the already-advanced simulation time. -/
def ammoniaBlackoutUpdate (cfg : AmmoniaVesselConfig) (st : AmmoniaState)
    (obs : AmmoniaObs) (simulation_time : ℕ) : AmmoniaState :=
  if st.in_blackout then
    -- elapsed = simulation_time - blackout_start_time
    if st.blackout_duration_sec ≤
        simulation_time - Option.getD st.blackout_start_time 0 then
      { st with in_blackout := false, blackout_start_time := none }
    else st
  else if obs.blackout_draw < cfg.signal_blackout_probability then
    { st with
        in_blackout := true
        blackout_start_time := some simulation_time
        blackout_duration_sec := obs.blackout_duration_draw }
  else st

/-- AmmoniaVesselSimulator.step (lines 151-315) with time step dt
seconds (`delta_time_sec or self.update_interval`, always positive). -/
def ammoniaStep (cfg : AmmoniaVesselConfig) (st : AmmoniaState)
    (obs : AmmoniaObs) (dt : ℕ) : AmmoniaState :=
  let simulation_time := st.simulation_time + dt
  -- 1. blackout bookkeeping (lines 182-200)
  let st := ammoniaBlackoutUpdate cfg st obs simulation_time
  -- 2. target waypoint with cyclic wrap (lines 206-210)
  let idx :=
    if cfg.route.length ≤ st.current_waypoint_idx then 0
    else st.current_waypoint_idx
  let target_waypoint := cfg.route.getD idx default
  -- 4. speed profile (lines 235-255)
  let target_speed :=
    if obs.distance_to_target < 5000 then
      cfg.min_speed_knots +
        (target_waypoint.arrival_speed_knots - cfg.min_speed_knots) *
          (obs.distance_to_target / 5000)
    else cfg.cruise_speed_knots
  let speed := limitSpeed target_speed st.speed (0.05 * dt)
  -- 5. course adjustment (lines 261-273)
  let course := limitCourse obs.target_course st.course (2 * dt)
  -- 6-7. dead-reckoned position and waypoint arrival (lines 279-305)
  let idx1 := if obs.distance_to_target < 500 then idx + 1 else idx
  { st with
      current_waypoint_idx := idx1
      latitude := obs.pred_latitude
      longitude := obs.pred_longitude
      course := course
      speed := speed
      heading := course
      simulation_time := simulation_time }

/-! ## Corridor (SMR) simulator (simulation_smr.py) -/

/-- Geofence zone classification. -/
inductive ZoneType where
  | ALLOWED | RESTRICTED | PROHIBITED
  deriving DecidableEq

/-- GeofenceZone dataclass (simulation_smr.py lines 31-44), with the
polygon itself left to the containment oracle of each tick. -/
structure GeofenceZone where
  zone_id : String
  zone_type : ZoneType
  max_speed_knots : Option ℚ := none
  mandatory_reporting : Bool := false
  deriving DecidableEq

/-- Corridor dataclass (lines 77-91); the centreline coordinates in
degrees, the width in metres and the speed cap in knots. -/
structure Corridor where
  centerline_coords : List (ℚ × ℚ)
  width_m : ℚ := 10000
  max_speed_knots : ℚ := 20
  deriving DecidableEq

/-- ViolationEvent kinds (lines 124-135). -/
inductive EventType where
  | CORRIDOR_DEVIATION | GEOFENCE_VIOLATION | SPEED_VIOLATION
  deriving DecidableEq

/-- ViolationEvent severities. -/
inductive Severity where
  | INFO | WARNING | CRITICAL
  deriving DecidableEq

/-- ViolationEvent (lines 124-135), the kind-specific details dict
dropped. -/
structure ViolationEvent where
  timestamp : ℕ
  event_type : EventType
  severity : Severity
  latitude : ℚ
  longitude : ℚ
  deriving DecidableEq

/-- SMRVesselConfig fields the step function reads (lines 148-168). -/
structure SMRVesselConfig where
  max_speed_knots : ℚ := 25
  cruise_speed_knots : ℚ := 22
  corridor_deviation_threshold_m : ℚ := 2000
  deriving DecidableEq

/-- Statistics of SMRVesselSimulator (lines 211-216). -/
structure SMRStats where
  total_distance_traveled_m : ℚ := 0
  corridor_deviations : ℕ := 0
  geofence_violations : ℕ := 0
  speed_violations : ℕ := 0
  deriving DecidableEq

/-- Mutable state of SMRVesselSimulator (lines 197-216) with the
kinematic fields of its vessel_state inlined. -/
structure SMRState where
  current_centerline_index : ℕ
  latitude : ℚ
  longitude : ℚ
  course : ℚ
  speed : ℚ
  heading : ℚ
  simulation_time : ℕ := 0
  violation_log : List ViolationEvent := []
  stats : SMRStats := {}
  deriving DecidableEq

/-- Oracle inputs of one SMR step: the geodesy-engine results consumed
by the step in source order — bearing and haversine distance to the
target centreline point, the cross-track distance at the current
position (line 317), the predict_position output, the haversine
distance moved, the cross-track distance at the updated position
(lines 385-392, computed twice on the same point), and the
contains_point answer for each geofence zone in order. -/
structure SMRObs where
  target_course : ℚ := 0
  distance_to_target : ℚ := 0
  cross_track_error : ℚ := 0
  pred_latitude : ℚ := 0
  pred_longitude : ℚ := 0
  distance_moved : ℚ := 0
  dxt_new : ℚ := 0
  in_zone : List Bool := []
  deriving DecidableEq

/-- Truthiness test `zone.max_speed_knots and speed > zone.max_speed_knots`
of line 432: None and 0.0 are both falsy in Python. -/
def speedLimitExceeded (zone : GeofenceZone) (speed : ℚ) : Bool :=
  match zone.max_speed_knots with
  | some ms => !decide (ms = 0) && decide (ms < speed)
  | none => false

/-- The geofence loop of SMRVesselSimulator.step (lines 411-443),
folded over the zones paired with their containment answers. -/
def geofenceChecks (st : SMRState) :
    List (GeofenceZone × Bool) → SMRState
  | [] => st
  | (zone, in_zone) :: rest =>
      let st1 :=
        if zone.zone_type = .PROHIBITED ∧ in_zone then
          { st with
              violation_log := st.violation_log ++
                [{ timestamp := st.simulation_time
                   event_type := .GEOFENCE_VIOLATION
                   severity := .CRITICAL
                   latitude := st.latitude
                   longitude := st.longitude }]
              stats := { st.stats with
                geofence_violations := st.stats.geofence_violations + 1 } }
        else if zone.zone_type = .RESTRICTED ∧ in_zone ∧
            speedLimitExceeded zone st.speed then
          { st with
              violation_log := st.violation_log ++
                [{ timestamp := st.simulation_time
                   event_type := .SPEED_VIOLATION
                   severity := .WARNING
                   latitude := st.latitude
                   longitude := st.longitude }]
              stats := { st.stats with
                speed_violations := st.stats.speed_violations + 1 } }
        else st
      geofenceChecks st1 rest

/-- SMRVesselSimulator.step (lines 257-454) with time step dt seconds. -/
def smrStep (cfg : SMRVesselConfig) (corridor : Corridor)
    (zones : List GeofenceZone) (st : SMRState) (obs : SMRObs)
    (dt : ℕ) : SMRState :=
  let simulation_time := st.simulation_time + dt
  -- 1. cyclic wrap of the centreline index (lines 288-291)
  let idx :=
    if corridor.centerline_coords.length ≤ st.current_centerline_index
    then 0 else st.current_centerline_index
  -- 3. path-following correction (lines 317-328)
  let course_correction := 0.05 * obs.cross_track_error
  let desired_course := obs.target_course +
    qsign obs.cross_track_error * min course_correction 10
  -- 4. course and speed (lines 334-349)
  let course := limitCourse desired_course st.course (1.5 * dt)
  let speed := min cfg.cruise_speed_knots corridor.max_speed_knots
  -- 5. position update and distance bookkeeping (lines 355-379)
  let st1 : SMRState := { st with
    latitude := obs.pred_latitude
    longitude := obs.pred_longitude
    course := course
    speed := speed
    heading := course
    simulation_time := simulation_time
    stats := { st.stats with
      total_distance_traveled_m :=
        st.stats.total_distance_traveled_m + obs.distance_moved } }
  -- 6. corridor deviation detection (lines 385-405)
  let st2 :=
    if ¬obs.dxt_new ≤ corridor.width_m / 2 then
      if cfg.corridor_deviation_threshold_m < obs.dxt_new then
        { st1 with
            violation_log := st1.violation_log ++
              [{ timestamp := simulation_time
                 event_type := .CORRIDOR_DEVIATION
                 severity := .CRITICAL
                 latitude := obs.pred_latitude
                 longitude := obs.pred_longitude }]
            stats := { st1.stats with
              corridor_deviations := st1.stats.corridor_deviations + 1 } }
      else st1
    else st1
  -- 7. geofence checks (lines 411-443)
  let st3 := geofenceChecks st2 (zones.zip obs.in_zone)
  -- 8. centreline point arrival (lines 449-452)
  let idx1 := if obs.distance_to_target < 1000 then idx + 1 else idx
  { st3 with current_centerline_index := idx1 }

/-- A run of consecutive SMR ticks, each with its oracle inputs and
time step. -/
def smrRun (cfg : SMRVesselConfig) (corridor : Corridor)
    (zones : List GeofenceZone) (st : SMRState) :
    List (SMRObs × ℕ) → SMRState
  | [] => st
  | (obs, dt) :: rest =>
      smrRun cfg corridor zones (smrStep cfg corridor zones st obs dt) rest

/-- Number of corridor-deviation events in a violation log. -/
def countCorridorDeviations (log : List ViolationEvent) : ℕ :=
  log.countP (fun e => e.event_type = .CORRIDOR_DEVIATION)

/-! ## Communication scenario controller (scenario_controller.py) -/

/-- SeaState enum (scenario_controller.py lines 30-38). -/
inductive SeaState where
  | CALM | SMOOTH | SLIGHT | MODERATE | ROUGH | VERY_ROUGH | HIGH
  deriving DecidableEq

/-- CommunicationProfile (lines 41-62); only the fields
process_transmission and get_update_interval read. -/
structure CommunicationProfile where
  latency_mean_ms : ℚ
  latency_std_ms : ℚ
  packet_loss_good_state : ℚ
  packet_loss_bad_state : ℚ
  prob_good_to_bad : ℚ
  prob_bad_to_good : ℚ
  normal_update_interval_sec : ℕ
  degraded_update_interval_sec : ℕ
  critical_update_interval_sec : ℕ
  deriving DecidableEq

/-- ScenarioConfig (lines 113-137), environment fields kept. -/
structure ScenarioConfig where
  communication_profile : CommunicationProfile
  sea_state : SeaState := .MODERATE
  degradation_level : ℚ := 0
  geofence_enabled : Bool := true
  force_blackout : Bool := false
  blackout_duration_sec : ℕ := 300
  deriving DecidableEq

/-- Gilbert-Elliott channel state. -/
inductive GEState where
  | GOOD | BAD
  deriving DecidableEq

/-- GilbertElliotModel (lines 140-185): transition and loss
probabilities plus the current state. -/
structure GilbertElliotModel where
  p_loss_good : ℚ
  p_loss_bad : ℚ
  p_gb : ℚ
  p_bg : ℚ
  current_state : GEState := .GOOD
  deriving DecidableEq

/-- GilbertElliotModel.step (lines 162-182): r_trans and r_loss are the
two random.random() draws.  Returns (packet_lost, updated model). -/
def geStep (g : GilbertElliotModel) (r_trans r_loss : ℚ) :
    Bool × GilbertElliotModel :=
  let s1 : GEState :=
    match g.current_state with
    | .GOOD => if r_trans < g.p_gb then .BAD else .GOOD
    | .BAD => if r_trans < g.p_bg then .GOOD else .BAD
  let lost :=
    match s1 with
    | .GOOD => decide (r_loss < g.p_loss_good)
    | .BAD => decide (r_loss < g.p_loss_bad)
  (lost, { g with current_state := s1 })

/-- The stats dictionary of ScenarioController (lines 211-217). -/
structure CommStats where
  total_packets : ℕ := 0
  lost_packets : ℕ := 0
  total_delay_ms : ℚ := 0
  blackout_events : ℕ := 0
  total_blackout_duration_sec : ℚ := 0
  deriving DecidableEq

/-- ScenarioController mutable state (lines 195-225). -/
structure ControllerState where
  config : ScenarioConfig
  ge_model : GilbertElliotModel
  stats : CommStats := {}
  in_blackout : Bool := false
  blackout_start_time : Option ℕ := none
  blackout_end_time : Option ℕ := none
  simulation_time : ℕ := 0
  deriving DecidableEq

/-- ScenarioController.__init__ (lines 195-225): the GE model is built
from the profile and the stats start at zero. -/
def initController (config : ScenarioConfig) (start_time : ℕ) :
    ControllerState :=
  { config := config
    ge_model :=
      { p_loss_good := config.communication_profile.packet_loss_good_state
        p_loss_bad := config.communication_profile.packet_loss_bad_state
        p_gb := config.communication_profile.prob_good_to_bad
        p_bg := config.communication_profile.prob_bad_to_good }
    simulation_time := start_time }

/-- Failure reasons returned by process_transmission. -/
inductive FailReason where
  | BLACKOUT
  | PACKET_LOSS
  deriving DecidableEq

/-- Result dictionary of process_transmission (success flag, failure
reason, latency of a delivered packet). -/
structure TransResult where
  success : Bool
  reason : Option FailReason := none
  latency_ms : Option ℚ := none
  deriving DecidableEq

/-- Oracle inputs of one process_transmission call: the optional
current_time argument, the two random.random() draws consumed by
GilbertElliotModel.step, and the np.random.normal latency sample. -/
structure TransInput where
  current_time : Option ℕ := none
  r_trans : ℚ := 1
  r_loss : ℚ := 1
  latency_draw : ℚ := 0
  deriving DecidableEq

/-- Sea-state latency factor table of _calculate_sea_state_impact
(lines 352-361). -/
def seaStateFactor : SeaState → ℚ
  | .CALM => 0
  | .SMOOTH => 0.05
  | .SLIGHT => 0.10
  | .MODERATE => 0.20
  | .ROUGH => 0.40
  | .VERY_ROUGH => 0.70
  | .HIGH => 1.20

/-- The `if current_time: self.simulation_time = current_time` prologue
of process_transmission (lines 241-242). -/
def applyCurrentTime (st : ControllerState) : Option ℕ → ControllerState
  | some t => { st with simulation_time := t }
  | none => st

/-- Forced-blackout window entry (lines 250-258). -/
def enterForcedBlackout (st : ControllerState) : ControllerState :=
  if st.config.force_blackout ∧ ¬st.in_blackout then
    { st with
        in_blackout := true
        blackout_start_time := some st.simulation_time
        blackout_end_time :=
          some (st.simulation_time + st.config.blackout_duration_sec)
        stats := { st.stats with
          blackout_events := st.stats.blackout_events + 1 } }
  else st

/-- Sections 2-4 of process_transmission (lines 280-342): the GE loss
draw with the temporarily degraded loss probabilities (restored
afterwards, lines 287-298) and the latency computation. -/
def processAfterBlackout (st : ControllerState) (inp : TransInput) :
    TransResult × ControllerState :=
  let degradation_factor : ℚ := 1 + st.config.degradation_level * 2
  let g := st.ge_model
  let gTmp := { g with
    p_loss_good := min (g.p_loss_good * degradation_factor) 0.5
    p_loss_bad := min (g.p_loss_bad * degradation_factor) 0.9 }
  let step := geStep gTmp inp.r_trans inp.r_loss
  let gRestored := { step.2 with
    p_loss_good := g.p_loss_good
    p_loss_bad := g.p_loss_bad }
  let st := { st with ge_model := gRestored }
  if step.1 then
    ({ success := false, reason := some .PACKET_LOSS },
      { st with stats :=
        { st.stats with lost_packets := st.stats.lost_packets + 1 } })
  else
    let mean := st.config.communication_profile.latency_mean_ms
    let sea_state_latency := mean * seaStateFactor st.config.sea_state
    let degradation_latency := mean * st.config.degradation_level * 0.5
    let total_latency :=
      max 0 (inp.latency_draw + sea_state_latency + degradation_latency)
    ({ success := true, latency_ms := some total_latency },
      { st with stats :=
        { st.stats with
            total_delay_ms := st.stats.total_delay_ms + total_latency } })

/-- ScenarioController.process_transmission (lines 227-342). -/
def processTransmission (st : ControllerState) (inp : TransInput) :
    TransResult × ControllerState :=
  let st := applyCurrentTime st inp.current_time
  let st := { st with stats :=
    { st.stats with total_packets := st.stats.total_packets + 1 } }
  -- 1. blackout window entry (lines 250-258)
  let st := enterForcedBlackout st
  -- blackout handling (lines 260-278); inside a blackout the end time
  -- is always set, the getD 0 is never read
  if st.in_blackout then
    if Option.getD st.blackout_end_time 0 ≤ st.simulation_time then
      let duration : ℚ :=
        ((Option.getD st.blackout_end_time 0 : ℤ) -
          (Option.getD st.blackout_start_time 0 : ℤ) : ℤ)
      let st := { st with
        in_blackout := false
        blackout_start_time := none
        blackout_end_time := none
        stats := { st.stats with
          total_blackout_duration_sec :=
            st.stats.total_blackout_duration_sec + duration } }
      processAfterBlackout st inp
    else
      ({ success := false, reason := some .BLACKOUT },
        { st with stats :=
          { st.stats with lost_packets := st.stats.lost_packets + 1 } })
  else
    processAfterBlackout st inp

/-- A sequence of process_transmission calls. -/
def runTransmissions (st : ControllerState) : List TransInput →
    ControllerState
  | [] => st
  | inp :: rest => runTransmissions (processTransmission st inp).2 rest

/-- ScenarioController.calculate_reliability_index (lines 387-405). -/
def calculateReliabilityIndex (st : ControllerState) : ℚ :=
  if st.stats.total_packets = 0 then 100
  else
    ((st.stats.total_packets : ℚ) - st.stats.lost_packets) /
      st.stats.total_packets * 100

/-- ScenarioController.calculate_average_latency (lines 407-420). -/
def calculateAverageLatency (st : ControllerState) : ℚ :=
  let successful_packets : ℚ :=
    (st.stats.total_packets : ℚ) - st.stats.lost_packets
  if successful_packets = 0 then 0
  else st.stats.total_delay_ms / successful_packets

/-- ScenarioController.reset_statistics (lines 434-442). -/
def resetStatistics (st : ControllerState) : ControllerState :=
  { st with stats := {} }

/-- CommunicationProfile.get_vsat (scenario_controller.py lines 80-94). -/
def getVsat : CommunicationProfile :=
  { latency_mean_ms := 500
    latency_std_ms := 100
    packet_loss_good_state := 0.005
    packet_loss_bad_state := 0.20
    prob_good_to_bad := 0.03
    prob_bad_to_good := 0.20
    normal_update_interval_sec := 5
    degraded_update_interval_sec := 20
    critical_update_interval_sec := 60 }

/-- CommunicationProfile.get_ais_terrestrial (lines 64-78). -/
def getAisTerrestrial : CommunicationProfile :=
  { latency_mean_ms := 2000
    latency_std_ms := 500
    packet_loss_good_state := 0.01
    packet_loss_bad_state := 0.30
    prob_good_to_bad := 0.05
    prob_bad_to_good := 0.15
    normal_update_interval_sec := 10
    degraded_update_interval_sec := 30
    critical_update_interval_sec := 120 }

/-- create_scenario_critical_failure (lines 480-489). -/
def createScenarioCriticalFailure : ScenarioConfig :=
  { communication_profile := getAisTerrestrial
    sea_state := .HIGH
    degradation_level := 0.9
    force_blackout := true
    blackout_duration_sec := 600 }

/-! ## Concrete instances used by counterexamples and witnesses -/

/-- A position report for the allowlisted HMM Algeciras at the
null-island sentinel (0, 0). -/
def nullIslandReport : PositionReportMsg :=
  { mmsi := "440326000", latitude := some 0, longitude := some 0 }

/-- A position report for the same vessel with an out-of-range course
(400 degrees) and a negative speed. -/
def rawKinematicsReport : PositionReportMsg :=
  { mmsi := "440326000", latitude := some 10, longitude := some 20,
    cog := some 400, sog := some (-5) }

/-- A cached-vessel literal used to populate test queues. -/
def sampleVessel (id : String) (la lo : ℚ) : VesselState :=
  { mmsi := id, vessel_name := "", vessel_type := "Cargo/Tanker",
    latitude := la, longitude := lo, course := 0, speed := 0 }

/-- A client configured with a 2-slot queue. -/
def smallQueueConfig : ClientConfig := { max_queue_size := 2 }

/-- A client state whose 2-slot queue is full. -/
def fullQueueState : ClientState :=
  { message_queue := [sampleVessel "a" 1 1, sampleVessel "b" 2 2] }

/-- The same client state with one free queue slot. -/
def freeQueueState : ClientState :=
  { message_queue := [sampleVessel "a" 1 1] }

/-- A two-point corridor with the default 10 km width (half-width
5000 m) and the default 2000 m deviation threshold of SMRVesselConfig. -/
def sampleCorridor : Corridor :=
  { centerline_coords := [(35, 129), (38, 140)] }

/-- An SMR vessel placed at the corridor start. -/
def smrStart : SMRState :=
  { current_centerline_index := 1, latitude := 35, longitude := 129,
    course := 0, speed := 22, heading := 0 }

/-- A tick whose updated position is 3000 m off the centreline: above
the 2000 m deviation threshold but inside the 5000 m half-width. -/
def insideCorridorDeviationObs : SMRObs :=
  { dxt_new := 3000, distance_to_target := 5000 }

/-- A tick whose updated position is 12000 m off the centreline: above
both the half-width and the deviation threshold. -/
def outsideCorridorObs : SMRObs :=
  { dxt_new := 12000, distance_to_target := 5000 }

/-- A two-waypoint ammonia route configuration for witnesses. -/
def ammoniaSampleConfig : AmmoniaVesselConfig :=
  { route := [{ latitude := 24.5, longitude := 54.4, name := "Abu Dhabi",
                arrival_speed_knots := 15 },
              { latitude := 22.3, longitude := 59.5, name := "Oman Sea",
                arrival_speed_knots := 17 }] }

/-- The placeholder record the handler caches for a first-ever report
of the allowlisted vessel before validating its position. -/
def c1CachedVessel : VesselState :=
  { mmsi := "440326000", vessel_name := "Unknown-440326000",
    vessel_type := "Autonomous Ship",
    latitude := 0, longitude := 0, course := 0, speed := 0 }

/-- The record the handler caches for rawKinematicsReport: course and
speed taken verbatim from the report. -/
def c2CachedVessel : VesselState :=
  { mmsi := "440326000", vessel_name := "Unknown-440326000",
    vessel_type := "Autonomous Ship",
    latitude := 10, longitude := 20, course := 400, speed := -5,
    heading := none, timestamp := 5, position_accuracy := 1 }

/-- A concrete ammonia simulator state for witnesses. -/
def ammoniaSampleState : AmmoniaState :=
  { current_waypoint_idx := 1, latitude := 24.5, longitude := 54.4,
    course := 80, speed := 16, heading := 80 }

/-- A concrete ammonia tick observation for witnesses. -/
def ammoniaSampleObs : AmmoniaObs :=
  { target_course := 250, distance_to_target := 100000,
    pred_latitude := 24.6, pred_longitude := 54.5 }

/-! ## Helper lemmas: Python float modulo on rationals -/

theorem qmod360_nonneg (x : ℚ) : 0 ≤ qmod360 x := by
  have h : (⌊x / 360⌋ : ℚ) ≤ x / 360 := Int.floor_le _
  have h2 : (360 : ℚ) * ⌊x / 360⌋ ≤ 360 * (x / 360) := by linarith
  have h3 : (360 : ℚ) * (x / 360) = x := by ring
  unfold qmod360
  linarith

theorem qmod360_lt (x : ℚ) : qmod360 x < 360 := by
  have h : x / 360 < ⌊x / 360⌋ + 1 := Int.lt_floor_add_one _
  have h2 : (360 : ℚ) * (x / 360) < 360 * (⌊x / 360⌋ + 1) := by linarith
  have h3 : (360 : ℚ) * (x / 360) = x := by ring
  unfold qmod360
  linarith

theorem qmod360_add_int_mul (x : ℚ) (k : ℤ) :
    qmod360 (x + 360 * k) = qmod360 x := by
  unfold qmod360
  have h : (x + 360 * k) / 360 = x / 360 + k := by
    field_simp
    ring
  rw [h, Int.floor_add_int]
  push_cast
  ring

theorem qmod360_eq_self {x : ℚ} (h0 : 0 ≤ x) (h1 : x < 360) :
    qmod360 x = x := by
  have h : ⌊x / 360⌋ = 0 := by
    rw [Int.floor_eq_zero_iff]
    constructor
    · positivity
    · rw [div_lt_one (by norm_num : (0:ℚ) < 360)]
      simpa using h1
  unfold qmod360
  rw [h]
  push_cast
  ring

theorem qmod360_shift (x : ℚ) : ∃ k : ℤ, qmod360 x = x - 360 * k :=
  ⟨⌊x / 360⌋, rfl⟩

theorem shortestRotation_lb (a b : ℚ) : -180 ≤ shortestRotation a b := by
  have := qmod360_nonneg (b - a + 180)
  unfold shortestRotation
  linarith

theorem shortestRotation_ub (a b : ℚ) : shortestRotation a b < 180 := by
  have := qmod360_lt (b - a + 180)
  unfold shortestRotation
  linarith

theorem shortestRotation_qmod360_right (a b : ℚ) :
    shortestRotation a (qmod360 b) = shortestRotation a b := by
  obtain ⟨k, hk⟩ := qmod360_shift b
  unfold shortestRotation
  rw [hk]
  have h : b - 360 * (k : ℚ) - a + 180 = (b - a + 180) + 360 * (-k : ℤ) := by
    push_cast
    ring
  rw [h, qmod360_add_int_mul]

/-! ## Helper lemmas: the rate-limited kinematics updates -/

theorem limitSpeed_bound (target current maxChange : ℚ)
    (hm : 0 ≤ maxChange) :
    |limitSpeed target current maxChange - current| ≤ maxChange := by
  unfold limitSpeed
  split
  · rename_i h
    have he : current + qsign (target - current) * maxChange - current =
        qsign (target - current) * maxChange := by ring
    rw [he]
    unfold qsign
    split
    · simp [abs_of_nonneg hm]
    · split
      · rw [neg_one_mul, abs_neg, abs_of_nonneg hm]
      · simpa using hm
  · rename_i h
    push_neg at h
    calc |target - current| ≤ maxChange := h

theorem limitCourse_bound (target current maxChange : ℚ)
    (hm : 0 < maxChange) :
    |shortestRotation current (limitCourse target current maxChange)| ≤
      maxChange := by
  have hlb := shortestRotation_lb current target
  have hub := shortestRotation_ub current target
  set d := shortestRotation current target with hd
  have hlc : limitCourse target current maxChange =
      qmod360 (if maxChange < |d| then
        current + qsign d * maxChange else target) := rfl
  rw [hlc]
  by_cases hbig : maxChange < |d|
  · rw [if_pos hbig]
    have habs : |d| ≤ 180 := abs_le.mpr ⟨hlb, le_of_lt hub⟩
    have hm180 : maxChange < 180 := lt_of_lt_of_le hbig habs
    rw [shortestRotation_qmod360_right]
    have hdne : d ≠ 0 := by
      intro h0
      rw [h0] at hbig
      simp at hbig
      linarith
    rcases lt_trichotomy d 0 with hneg | hzero | hpos
    · have hs : qsign d = -1 := by
        unfold qsign
        rw [if_neg (by linarith), if_pos hneg]
      rw [hs]
      have harg : current + -1 * maxChange - current + 180 =
          180 - maxChange := by ring
      unfold shortestRotation
      rw [harg, qmod360_eq_self (by linarith) (by linarith)]
      rw [show 180 - maxChange - 180 = -maxChange by ring]
      simp [abs_of_nonneg (le_of_lt hm)]
    · exact absurd hzero hdne
    · have hs : qsign d = 1 := by
        unfold qsign
        rw [if_pos hpos]
      rw [hs]
      have harg : current + 1 * maxChange - current + 180 =
          maxChange + 180 := by ring
      unfold shortestRotation
      rw [harg, qmod360_eq_self (by linarith) (by linarith)]
      rw [show maxChange + 180 - 180 = maxChange by ring]
      simp [abs_of_nonneg (le_of_lt hm)]
  · rw [if_neg hbig]
    push_neg at hbig
    rw [shortestRotation_qmod360_right]
    exact hbig

theorem ammoniaBlackoutUpdate_speed_course (cfg : AmmoniaVesselConfig)
    (st : AmmoniaState) (obs : AmmoniaObs) (t : ℕ) :
    (ammoniaBlackoutUpdate cfg st obs t).speed = st.speed ∧
    (ammoniaBlackoutUpdate cfg st obs t).course = st.course := by
  unfold ammoniaBlackoutUpdate
  split_ifs <;> exact ⟨rfl, rfl⟩

theorem ammoniaStep_kinematics (cfg : AmmoniaVesselConfig)
    (st : AmmoniaState) (obs : AmmoniaObs) (dt : ℕ) :
    ∃ T, (ammoniaStep cfg st obs dt).speed =
        limitSpeed T st.speed (0.05 * dt) ∧
      (ammoniaStep cfg st obs dt).course =
        limitCourse obs.target_course st.course (2 * dt) := by
  obtain ⟨hs, hc⟩ := ammoniaBlackoutUpdate_speed_course cfg st obs
    (st.simulation_time + dt)
  unfold ammoniaStep
  dsimp only
  rw [hs, hc]
  exact ⟨_, rfl, rfl⟩

/-- Claim C9: on every waypoint-route simulator tick of duration dt > 0,
whatever the target speed and target bearing, the speed changes by at
most 0.05·dt knots and the course rotates (measured along the shortest
sign) by at most 2·dt degrees. -/
theorem c9_ammonia_rate_limits (cfg : AmmoniaVesselConfig)
    (st : AmmoniaState) (obs : AmmoniaObs) (dt : ℕ) (h : 0 < dt) :
    |(ammoniaStep cfg st obs dt).speed - st.speed| ≤ 0.05 * dt ∧
    |shortestRotation st.course (ammoniaStep cfg st obs dt).course| ≤
      2 * dt := by
  obtain ⟨T, hs, hc⟩ := ammoniaStep_kinematics cfg st obs dt
  have hdt : (0 : ℚ) < dt := by exact_mod_cast h
  constructor
  · rw [hs]
    exact limitSpeed_bound _ _ _ (by positivity)
  · rw [hc]
    exact limitCourse_bound _ _ _ (by positivity)

/-- Witness for C9 at a concrete tick (dt = 10 s). -/
theorem c9_ammonia_rate_limits_witness :
    0 < 10 ∧
    |(ammoniaStep ammoniaSampleConfig ammoniaSampleState ammoniaSampleObs
        10).speed - ammoniaSampleState.speed| ≤ 0.05 * ((10 : ℕ) : ℚ) ∧
    |shortestRotation ammoniaSampleState.course
        (ammoniaStep ammoniaSampleConfig ammoniaSampleState
          ammoniaSampleObs 10).course| ≤ 2 * ((10 : ℕ) : ℚ) :=
  ⟨by norm_num,
    (c9_ammonia_rate_limits ammoniaSampleConfig ammoniaSampleState
      ammoniaSampleObs 10 (by norm_num)).1,
    (c9_ammonia_rate_limits ammoniaSampleConfig ammoniaSampleState
      ammoniaSampleObs 10 (by norm_num)).2⟩

/-- Claim C10: with no transmission processed yet (all statistics zero, as
after construction or reset_statistics), the reliability index is 100
and the average latency is 0 — neither divides by zero. -/
theorem c10_fresh_metrics_defined (cfg : ScenarioConfig) (t0 : ℕ)
    (st : ControllerState) :
    calculateReliabilityIndex (initController cfg t0) = 100 ∧
    calculateAverageLatency (initController cfg t0) = 0 ∧
    calculateReliabilityIndex (resetStatistics st) = 100 ∧
    calculateAverageLatency (resetStatistics st) = 0 := by
  refine ⟨rfl, ?_, rfl, ?_⟩ <;>
    simp [calculateAverageLatency, initController, resetStatistics]

/-- Claim C5: the reconnect loop sleeps min(2^n, 60) seconds on the n-th
consecutive attempt (the all-fail run performs exactly the sleeps
2, 4, 8, 16, 32, 60, ..., 60 and then clears the running flag); a failed
connect carries the incremented counter into the next attempt; a
successful subscribe resets the counter to 0 (whether or not the
connection survives); and with the 10-attempt budget exhausted the
client stops. -/
theorem c5_reconnect_backoff :
    reconnectWithBackoff (List.replicate 10 .fail) 0 =
      ([2, 4, 8, 16, 32, 60, 60, 60, 60, 60], 10, false) ∧
    (∀ rest a, a < 10 →
      reconnectWithBackoff (.fail :: rest) a =
        (min (2 ^ (a + 1)) 60 :: (reconnectWithBackoff rest (a + 1)).1,
          (reconnectWithBackoff rest (a + 1)).2)) ∧
    (∀ rest a, a < 10 →
      reconnectWithBackoff (.succHold :: rest) a =
        ([min (2 ^ (a + 1)) 60], 0, true)) ∧
    (∀ rest a, a < 10 →
      reconnectWithBackoff (.succDrop :: rest) a =
        (min (2 ^ (a + 1)) 60 :: (reconnectWithBackoff rest 0).1,
          (reconnectWithBackoff rest 0).2)) ∧
    (∀ outcomes a, 10 ≤ a →
      reconnectWithBackoff outcomes a = ([], a, false)) := by
  refine ⟨by decide, ?_, ?_, ?_, ?_⟩
  · intro rest a ha
    simp [reconnectWithBackoff, ha, backoffDelay]
  · intro rest a ha
    simp [reconnectWithBackoff, ha, backoffDelay]
  · intro rest a ha
    simp [reconnectWithBackoff, ha, backoffDelay]
  · intro outcomes a ha
    cases outcomes <;> simp [reconnectWithBackoff, Nat.not_lt.mpr ha]

/-- Witness for C5: a successful subscribe on the fourth attempt sleeps
min(2^4, 60) = 16 s and resets the counter. -/
theorem c5_reconnect_backoff_witness :
    3 < 10 ∧
    reconnectWithBackoff [.succHold] 3 = ([min (2 ^ 4) 60], 0, true) :=
  ⟨by norm_num, c5_reconnect_backoff.2.2.1 [] 3 (by norm_num)⟩

/-! ## Helper lemmas: the scenario controller -/

theorem applyCurrentTime_fields (st : ControllerState) (t : Option ℕ) :
    (applyCurrentTime st t).stats = st.stats ∧
    (applyCurrentTime st t).ge_model = st.ge_model ∧
    (applyCurrentTime st t).config = st.config ∧
    (applyCurrentTime st t).in_blackout = st.in_blackout := by
  cases t <;> exact ⟨rfl, rfl, rfl, rfl⟩

theorem enterForcedBlackout_fields (st : ControllerState) :
    (enterForcedBlackout st).stats.total_packets =
      st.stats.total_packets ∧
    (enterForcedBlackout st).stats.lost_packets =
      st.stats.lost_packets ∧
    (enterForcedBlackout st).ge_model = st.ge_model := by
  unfold enterForcedBlackout
  split_ifs <;> exact ⟨rfl, rfl, rfl⟩

theorem processAfterBlackout_not_blackout (st : ControllerState)
    (inp : TransInput) :
    (processAfterBlackout st inp).1.reason ≠ some .BLACKOUT := by
  unfold processAfterBlackout
  dsimp only
  split_ifs <;> simp

theorem processAfterBlackout_stats (st : ControllerState)
    (inp : TransInput) :
    (processAfterBlackout st inp).2.stats.total_packets =
      st.stats.total_packets ∧
    ((processAfterBlackout st inp).2.stats.lost_packets =
        st.stats.lost_packets ∨
      (processAfterBlackout st inp).2.stats.lost_packets =
        st.stats.lost_packets + 1) := by
  unfold processAfterBlackout
  dsimp only
  split_ifs
  · exact ⟨rfl, Or.inr rfl⟩
  · exact ⟨rfl, Or.inl rfl⟩

theorem processTransmission_counts (st : ControllerState)
    (inp : TransInput) :
    (processTransmission st inp).2.stats.total_packets =
      st.stats.total_packets + 1 ∧
    ((processTransmission st inp).2.stats.lost_packets =
        st.stats.lost_packets ∨
      (processTransmission st inp).2.stats.lost_packets =
        st.stats.lost_packets + 1) := by
  obtain ⟨hs, -, -, -⟩ := applyCurrentTime_fields st inp.current_time
  unfold processTransmission
  dsimp only
  set st1 := applyCurrentTime st inp.current_time with hst1
  set st2 : ControllerState := { st1 with stats :=
    { st1.stats with total_packets := st1.stats.total_packets + 1 } }
    with hst2
  obtain ⟨ht2, hl2, -⟩ := enterForcedBlackout_fields st2
  have htot : (enterForcedBlackout st2).stats.total_packets =
      st.stats.total_packets + 1 := by
    rw [ht2, hst2]
    dsimp only
    rw [hs]
  have hlost : (enterForcedBlackout st2).stats.lost_packets =
      st.stats.lost_packets := by
    rw [hl2, hst2]
    dsimp only
    rw [hs]
  split_ifs
  · obtain ⟨ha, hb⟩ := processAfterBlackout_stats
      { enterForcedBlackout st2 with
        in_blackout := false
        blackout_start_time := none
        blackout_end_time := none
        stats := { (enterForcedBlackout st2).stats with
          total_blackout_duration_sec :=
            (enterForcedBlackout st2).stats.total_blackout_duration_sec +
              (((Option.getD (enterForcedBlackout st2).blackout_end_time 0 : ℤ) -
                (Option.getD (enterForcedBlackout st2).blackout_start_time 0 : ℤ) : ℤ) : ℚ) } }
      inp
    refine ⟨?_, ?_⟩
    · rw [ha]
      exact htot
    · rcases hb with hb | hb
      · exact Or.inl (by rw [hb]; exact hlost)
      · exact Or.inr (by rw [hb, hlost])
  · exact ⟨htot, Or.inr (by dsimp only; rw [hlost])⟩
  · obtain ⟨ha, hb⟩ := processAfterBlackout_stats (enterForcedBlackout st2) inp
    refine ⟨by rw [ha]; exact htot, ?_⟩
    rcases hb with hb | hb
    · exact Or.inl (by rw [hb]; exact hlost)
    · exact Or.inr (by rw [hb, hlost])

theorem processTransmission_lost_le (st : ControllerState)
    (inp : TransInput)
    (h : st.stats.lost_packets ≤ st.stats.total_packets) :
    (processTransmission st inp).2.stats.lost_packets ≤
      (processTransmission st inp).2.stats.total_packets := by
  obtain ⟨ht, hl⟩ := processTransmission_counts st inp
  rw [ht]
  rcases hl with hl | hl <;> rw [hl] <;> omega

theorem runTransmissions_lost_le (inputs : List TransInput) :
    ∀ st : ControllerState,
      st.stats.lost_packets ≤ st.stats.total_packets →
      (runTransmissions st inputs).stats.lost_packets ≤
        (runTransmissions st inputs).stats.total_packets := by
  induction inputs with
  | nil => intro st h; exact h
  | cons inp rest ih =>
      intro st h
      exact ih _ (processTransmission_lost_le st inp h)

theorem reliabilityIndex_bounds (st : ControllerState)
    (h : st.stats.lost_packets ≤ st.stats.total_packets) :
    0 ≤ calculateReliabilityIndex st ∧
    calculateReliabilityIndex st ≤ 100 := by
  unfold calculateReliabilityIndex
  split_ifs with h0
  · norm_num
  · have hT : (0 : ℚ) < st.stats.total_packets := by
      exact_mod_cast Nat.pos_of_ne_zero h0
    have hL : (st.stats.lost_packets : ℚ) ≤ st.stats.total_packets := by
      exact_mod_cast h
    have hL0 : (0 : ℚ) ≤ st.stats.lost_packets := by positivity
    constructor
    · have : (0 : ℚ) ≤
          ((st.stats.total_packets : ℚ) - st.stats.lost_packets) /
            st.stats.total_packets := by
        apply div_nonneg _ (le_of_lt hT)
        linarith
      nlinarith
    · have hle : ((st.stats.total_packets : ℚ) - st.stats.lost_packets) /
          st.stats.total_packets ≤ 1 := by
        rw [div_le_one hT]
        linarith
      nlinarith

/-- Claim C7: over any sequence of process_transmission calls from a fresh
controller, lost_packets never exceeds total_packets; when at least one
packet was sent the reliability index equals
100·(total − lost)/total, and it always lies in [0, 100]. -/
theorem c7_reliability_index (cfg : ScenarioConfig) (t0 : ℕ)
    (inputs : List TransInput) :
    (runTransmissions (initController cfg t0) inputs).stats.lost_packets ≤
      (runTransmissions (initController cfg t0) inputs).stats.total_packets ∧
    (0 < (runTransmissions (initController cfg t0) inputs).stats.total_packets →
      calculateReliabilityIndex (runTransmissions (initController cfg t0) inputs) =
        100 * (((runTransmissions (initController cfg t0) inputs).stats.total_packets : ℚ) -
            ((runTransmissions (initController cfg t0) inputs).stats.lost_packets : ℚ)) /
          ((runTransmissions (initController cfg t0) inputs).stats.total_packets : ℚ)) ∧
    0 ≤ calculateReliabilityIndex (runTransmissions (initController cfg t0) inputs) ∧
    calculateReliabilityIndex (runTransmissions (initController cfg t0) inputs) ≤ 100 := by
  have hinv := runTransmissions_lost_le inputs (initController cfg t0)
    (by simp [initController])
  obtain ⟨h0, h100⟩ := reliabilityIndex_bounds _ hinv
  refine ⟨hinv, ?_, h0, h100⟩
  intro hpos
  unfold calculateReliabilityIndex
  rw [if_neg (Nat.pos_iff_ne_zero.mp hpos)]
  ring

/-- Witness for C7 after one forced-blackout transmission (1 packet
sent, 1 lost, reliability index 0). -/
theorem c7_reliability_index_witness :
    0 < (runTransmissions (initController createScenarioCriticalFailure 0)
      [{ current_time := some 10 }]).stats.total_packets ∧
    calculateReliabilityIndex
        (runTransmissions (initController createScenarioCriticalFailure 0)
          [{ current_time := some 10 }]) =
      100 * (((runTransmissions (initController createScenarioCriticalFailure 0)
          [{ current_time := some 10 }]).stats.total_packets : ℚ) -
          ((runTransmissions (initController createScenarioCriticalFailure 0)
            [{ current_time := some 10 }]).stats.lost_packets : ℚ)) /
        ((runTransmissions (initController createScenarioCriticalFailure 0)
          [{ current_time := some 10 }]).stats.total_packets : ℚ) ∧
    0 ≤ calculateReliabilityIndex
        (runTransmissions (initController createScenarioCriticalFailure 0)
          [{ current_time := some 10 }]) ∧
    calculateReliabilityIndex
        (runTransmissions (initController createScenarioCriticalFailure 0)
          [{ current_time := some 10 }]) ≤ 100 :=
  ⟨by decide,
    (c7_reliability_index createScenarioCriticalFailure 0
      [{ current_time := some 10 }]).2.1 (by decide),
    (c7_reliability_index createScenarioCriticalFailure 0
      [{ current_time := some 10 }]).2.2.1,
    (c7_reliability_index createScenarioCriticalFailure 0
      [{ current_time := some 10 }]).2.2.2⟩

/-- Claim C8: a process_transmission call that fails with reason BLACKOUT
leaves the Gilbert-Elliott model untouched — same GOOD/BAD state and
same configured loss probabilities. -/
theorem c8_blackout_preserves_ge (st : ControllerState)
    (inp : TransInput)
    (h : (processTransmission st inp).1.reason = some .BLACKOUT) :
    (processTransmission st inp).2.ge_model = st.ge_model := by
  obtain ⟨-, hge, -, -⟩ := applyCurrentTime_fields st inp.current_time
  unfold processTransmission at h ⊢
  dsimp only at h ⊢
  split_ifs at h ⊢
  · exact absurd h (processAfterBlackout_not_blackout _ _)
  · obtain ⟨-, -, hge2⟩ := enterForcedBlackout_fields
      { applyCurrentTime st inp.current_time with stats :=
        { (applyCurrentTime st inp.current_time).stats with
          total_packets :=
            (applyCurrentTime st inp.current_time).stats.total_packets + 1 } }
    dsimp only
    rw [hge2]
    exact hge
  · exact absurd h (processAfterBlackout_not_blackout _ _)

/-- Witness for C8: the first transmission of the critical-failure
scenario fails with reason BLACKOUT and leaves the GE model intact. -/
theorem c8_blackout_preserves_ge_witness :
    (processTransmission (initController createScenarioCriticalFailure 0)
        { current_time := some 10 }).1.reason = some .BLACKOUT ∧
    (processTransmission (initController createScenarioCriticalFailure 0)
        { current_time := some 10 }).2.ge_model =
      (initController createScenarioCriticalFailure 0).ge_model :=
  ⟨by decide,
    c8_blackout_preserves_ge (initController createScenarioCriticalFailure 0)
      { current_time := some 10 } (by decide)⟩

/-! ## Helper lemmas: corridor-deviation counting in the SMR simulator -/

theorem countCorridorDeviations_append (l1 l2 : List ViolationEvent) :
    countCorridorDeviations (l1 ++ l2) =
      countCorridorDeviations l1 + countCorridorDeviations l2 :=
  List.countP_append _ _ _

theorem geofenceChecks_corridor_count (zs : List (GeofenceZone × Bool)) :
    ∀ st : SMRState,
      countCorridorDeviations (geofenceChecks st zs).violation_log =
        countCorridorDeviations st.violation_log := by
  induction zs with
  | nil => intro st; rfl
  | cons z rest ih =>
      intro st
      unfold geofenceChecks
      dsimp only
      split_ifs <;>
        rw [ih] <;>
        dsimp only <;>
        rw [countCorridorDeviations_append] <;>
        simp [countCorridorDeviations]

theorem smrStep_corridor_count (cfg : SMRVesselConfig)
    (corridor : Corridor) (zones : List GeofenceZone) (st : SMRState)
    (obs : SMRObs) (dt : ℕ) :
    countCorridorDeviations (smrStep cfg corridor zones st obs dt).violation_log =
      countCorridorDeviations st.violation_log +
        (if corridor.width_m / 2 < obs.dxt_new ∧
            cfg.corridor_deviation_threshold_m < obs.dxt_new
         then 1 else 0) := by
  unfold smrStep
  dsimp only
  rw [geofenceChecks_corridor_count]
  by_cases hw : obs.dxt_new ≤ corridor.width_m / 2
  · rw [if_neg (not_not_intro hw),
      if_neg (fun hc => absurd hc.1 (not_lt.mpr hw))]
    simp
  · by_cases ht : cfg.corridor_deviation_threshold_m < obs.dxt_new
    · rw [if_pos hw, if_pos ht, if_pos ⟨not_le.mp hw, ht⟩]
      dsimp only
      rw [countCorridorDeviations_append]
      simp [countCorridorDeviations]
    · rw [if_pos hw, if_neg ht, if_neg (fun hc => ht hc.2)]
      simp

/-- Claim C3 (amended): a tick appends a corridor-deviation violation exactly
when the cross-track distance at the updated position exceeds both the
corridor half-width and the deviation threshold; a deviation beyond the
threshold but still inside the half-width is not logged. -/
theorem c3_deviation_requires_half_width (cfg : SMRVesselConfig)
    (corridor : Corridor) (zones : List GeofenceZone) (st : SMRState)
    (obs : SMRObs) (dt : ℕ) :
    countCorridorDeviations (smrStep cfg corridor zones st obs dt).violation_log =
      countCorridorDeviations st.violation_log +
        (if corridor.width_m / 2 < obs.dxt_new ∧
            cfg.corridor_deviation_threshold_m < obs.dxt_new
         then 1 else 0) :=
  smrStep_corridor_count cfg corridor zones st obs dt

/-- Counterexample to C3 as stated: on the default corridor (10 km
width, hence 5000 m half-width) a tick whose cross-track distance is
3000 m exceeds the default 2000 m threshold, yet no violation is
appended. -/
theorem c3_counterexample_inside_half_width :
    ({} : SMRVesselConfig).corridor_deviation_threshold_m <
      insideCorridorDeviationObs.dxt_new ∧
    countCorridorDeviations
      (smrStep {} sampleCorridor [] smrStart insideCorridorDeviationObs
        10).violation_log = 0 := by
  constructor
  · show (2000 : ℚ) < 3000
    norm_num
  · rw [smrStep_corridor_count]
    rw [if_neg (fun hc => ?_)]
    · rfl
    · have h : (10000 : ℚ) / 2 < 3000 := hc.1
      norm_num at h

theorem smrRun_corridor_count (cfg : SMRVesselConfig)
    (corridor : Corridor) (zones : List GeofenceZone)
    (ticks : List (SMRObs × ℕ)) :
    ∀ st : SMRState,
      countCorridorDeviations
          (smrRun cfg corridor zones st ticks).violation_log =
        countCorridorDeviations st.violation_log +
          ticks.countP (fun p =>
            decide (corridor.width_m / 2 < p.1.dxt_new ∧
              cfg.corridor_deviation_threshold_m < p.1.dxt_new)) := by
  induction ticks with
  | nil => intro st; simp [smrRun]
  | cons p rest ih =>
      intro st
      rcases p with ⟨obs, dt⟩
      rw [smrRun, ih, smrStep_corridor_count, List.countP_cons]
      by_cases h : corridor.width_m / 2 < obs.dxt_new ∧
          cfg.corridor_deviation_threshold_m < obs.dxt_new
      · simp [h]
        omega
      · simp [h]

/-- Claim C4 (amended): over a run of ticks, one corridor-deviation event is
appended on every tick whose cross-track distance exceeds both the
half-width and the threshold — not only at the rising edge. -/
theorem c4_deviation_every_tick (cfg : SMRVesselConfig)
    (corridor : Corridor) (zones : List GeofenceZone) (st : SMRState)
    (ticks : List (SMRObs × ℕ)) :
    countCorridorDeviations
        (smrRun cfg corridor zones st ticks).violation_log =
      countCorridorDeviations st.violation_log +
        ticks.countP (fun p =>
          decide (corridor.width_m / 2 < p.1.dxt_new ∧
            cfg.corridor_deviation_threshold_m < p.1.dxt_new)) :=
  smrRun_corridor_count cfg corridor zones ticks st

/-- Counterexample to C4 as stated: two consecutive ticks both 12000 m
off the default corridor (beyond half-width and threshold) log two
corridor-deviation events, not the single rising-edge event the claim
predicts. -/
theorem c4_counterexample_two_events :
    smrStart.violation_log = [] ∧
    sampleCorridor.width_m / 2 < outsideCorridorObs.dxt_new ∧
    ({} : SMRVesselConfig).corridor_deviation_threshold_m <
      outsideCorridorObs.dxt_new ∧
    countCorridorDeviations
        (smrRun {} sampleCorridor [] smrStart
          [(outsideCorridorObs, 10), (outsideCorridorObs, 10)]).violation_log
      = 2 := by
  have hw : sampleCorridor.width_m / 2 < outsideCorridorObs.dxt_new := by
    show (10000 : ℚ) / 2 < 12000
    norm_num
  have ht : ({} : SMRVesselConfig).corridor_deviation_threshold_m <
      outsideCorridorObs.dxt_new := by
    show (2000 : ℚ) < 12000
    norm_num
  refine ⟨rfl, hw, ht, ?_⟩
  have hrun : smrRun {} sampleCorridor [] smrStart
      [(outsideCorridorObs, 10), (outsideCorridorObs, 10)] =
      smrStep {} sampleCorridor []
        (smrStep {} sampleCorridor [] smrStart outsideCorridorObs 10)
        outsideCorridorObs 10 := rfl
  rw [hrun, smrStep_corridor_count, smrStep_corridor_count,
    if_pos ⟨hw, ht⟩]
  rfl

/-! ## Helper lemmas: the AIS ingest client -/

theorem cacheFind_cacheInsert_self (c : List (String × VesselState))
    (k : String) (v : VesselState) :
    cacheFind (cacheInsert c k v) k = some v := by
  induction c with
  | nil => simp [cacheInsert, cacheFind]
  | cons p rest ih =>
      rcases p with ⟨k0, v0⟩
      by_cases hk : k0 = k
      · simp [cacheInsert, cacheFind, hk]
      · simp [cacheInsert, cacheFind, hk, ih]

theorem cacheInsert_cacheInsert (c : List (String × VesselState))
    (k : String) (v0 v1 : VesselState) :
    cacheInsert (cacheInsert c k v0) k v1 = cacheInsert c k v1 := by
  induction c with
  | nil => simp [cacheInsert]
  | cons p rest ih =>
      rcases p with ⟨k0, w⟩
      by_cases hk : k0 = k
      · simp [cacheInsert, hk]
      · simp [cacheInsert, hk, ih]

theorem admitted_conditions (cfg : ClientConfig) (st : ClientState)
    (m : PositionReportMsg) (hadm : admitsMessage cfg st m = true) :
    ¬(¬(m.mmsi ∈ AUTONOMOUS_SHIP_MMSI_LIST) ∧
      ¬(if cfg.use_ship_type_fallback then
          Option.getD m.ship_type 0 ∈ AUTONOMOUS_SHIP_TYPES else False)) ∧
    ¬(¬(m.mmsi ∈ AUTONOMOUS_SHIP_MMSI_LIST) ∧
      cfg.max_vessels ≤ st.vessel_cache.length) := by
  unfold admitsMessage at hadm
  by_cases hmem : m.mmsi ∈ AUTONOMOUS_SHIP_MMSI_LIST <;>
    by_cases hf : cfg.use_ship_type_fallback = true <;>
      simp [hmem, hf] at hadm ⊢ <;>
      try exact hadm

/-- On the admitted, valid-position path the handler overwrites the
cache entry with the updated vessel, enqueues it, and only touches the
last_update statistic. -/
theorem handlePositionReport_admitted (cfg : ClientConfig)
    (st : ClientState) (m : PositionReportMsg) (now : ℕ)
    (hadm : admitsMessage cfg st m = true)
    (hval : isNullIsland (reportedPosition st m) = false) :
    handlePositionReport cfg st m now =
      { st with
          vessel_cache :=
            cacheInsert st.vessel_cache m.mmsi (updatedVessel st m now)
          message_queue :=
            queuePut cfg.max_queue_size st.message_queue
              (updatedVessel st m now)
          stats := { st.stats with last_update := some now } } := by
  obtain ⟨hc1, hc2⟩ := admitted_conditions cfg st m hadm
  unfold isNullIsland reportedPosition at hval
  rw [Bool.and_eq_false_iff] at hval
  unfold handlePositionReport
  dsimp only
  rw [if_neg hc1, if_neg hc2]
  cases hfind : cacheFind st.vessel_cache m.mmsi with
  | none =>
      simp only [hfind] at hval ⊢
      rw [if_neg ?hnull]
      case hnull =>
        intro hn
        rcases hval with hval | hval <;>
          simp only [Option.getD_none, Option.getD_some,
            decide_eq_false_iff_not] at hval <;>
          [exact hval hn.1; exact hval hn.2]
      simp only [updatedVessel, hfind, Option.getD_none,
        cacheInsert_cacheInsert]
  | some v =>
      simp only [hfind] at hval ⊢
      rw [if_neg ?hnull2]
      case hnull2 =>
        intro hn
        rcases hval with hval | hval <;>
          simp only [Option.getD_none, Option.getD_some,
            decide_eq_false_iff_not] at hval <;>
          [exact hval hn.1; exact hval hn.2]
      simp only [updatedVessel, hfind, Option.getD_some]

theorem queuePut_length_le (maxsize : ℕ) (q : List VesselState)
    (v : VesselState) (hN : 0 < maxsize) (h : q.length ≤ maxsize) :
    (queuePut maxsize q v).length ≤ maxsize := by
  unfold queuePut
  split_ifs with hfull
  · simp only [List.length_append, List.length_drop, List.length_cons,
      List.length_nil]
    omega
  · simp only [List.length_append, List.length_cons, List.length_nil]
    rw [not_and_or] at hfull
    rcases hfull with hfull | hfull
    · exact absurd hN hfull
    · omega

theorem queuePut_full (maxsize : ℕ) (q : List VesselState)
    (v : VesselState) (hN : 0 < maxsize) (h : q.length = maxsize) :
    queuePut maxsize q v = q.drop 1 ++ [v] := by
  unfold queuePut
  rw [if_pos ⟨hN, le_of_eq h.symm⟩]

theorem handlePositionReport_queue_cases (cfg : ClientConfig)
    (st : ClientState) (m : PositionReportMsg) (now : ℕ) :
    (handlePositionReport cfg st m now).message_queue =
        st.message_queue ∨
      (handlePositionReport cfg st m now).message_queue =
        queuePut cfg.max_queue_size st.message_queue
          (updatedVessel st m now) := by
  unfold handlePositionReport
  dsimp only
  cases hfind : cacheFind st.vessel_cache m.mmsi <;>
    simp only [hfind] <;> split_ifs <;>
      first
        | exact Or.inl rfl
        | (right
           simp [updatedVessel, hfind])

/-! ## Claim theorems: the AIS ingest client -/

/-- Claim C1: the code caches a placeholder record at (0, 0) for a first-ever
position report that carries the null-island sentinel — the cache IS
touched, and a vessel record with lat = 0 and lon = 0 survives ingest
(the report itself is counted as filtered). -/
theorem c1_null_island_cached :
    (handlePositionReport {} {} nullIslandReport 5).vessel_cache =
      [("440326000", c1CachedVessel)] ∧
    c1CachedVessel.latitude = 0 ∧ c1CachedVessel.longitude = 0 ∧
    (handlePositionReport {} {} nullIslandReport 5).stats.messages_filtered
      = 1 := by
  refine ⟨by decide, rfl, rfl, by decide⟩

/-- Claim C2 (amended): the stored course is exactly the Cog of the report (the
previous value when absent) and the stored speed exactly its Sog — no
modulo-360 normalisation and no clamping of negative speeds is
applied. -/
theorem c2_course_speed_stored_raw (cfg : ClientConfig)
    (st : ClientState) (m : PositionReportMsg) (now : ℕ)
    (hadm : admitsMessage cfg st m = true)
    (hval : isNullIsland (reportedPosition st m) = false) :
    ∃ v, cacheFind (handlePositionReport cfg st m now).vessel_cache
        m.mmsi = some v ∧
      v.course = Option.getD m.cog
        (Option.getD (cacheFind st.vessel_cache m.mmsi)
          (newVessel m (decide
            (m.mmsi ∈ AUTONOMOUS_SHIP_MMSI_LIST)))).course ∧
      v.speed = Option.getD m.sog
        (Option.getD (cacheFind st.vessel_cache m.mmsi)
          (newVessel m (decide
            (m.mmsi ∈ AUTONOMOUS_SHIP_MMSI_LIST)))).speed := by
  rw [handlePositionReport_admitted cfg st m now hadm hval]
  dsimp only
  rw [cacheFind_cacheInsert_self]
  exact ⟨updatedVessel st m now, rfl, rfl, rfl⟩

/-- Witness for C2 (amended) at the concrete raw-kinematics report. -/
theorem c2_course_speed_stored_raw_witness :
    admitsMessage {} {} rawKinematicsReport = true ∧
    (∃ v, cacheFind (handlePositionReport {} {} rawKinematicsReport
        5).vessel_cache rawKinematicsReport.mmsi = some v ∧
      v.course = Option.getD rawKinematicsReport.cog
        (Option.getD (cacheFind ({} : ClientState).vessel_cache
            rawKinematicsReport.mmsi)
          (newVessel rawKinematicsReport (decide
            (rawKinematicsReport.mmsi ∈ AUTONOMOUS_SHIP_MMSI_LIST)))).course ∧
      v.speed = Option.getD rawKinematicsReport.sog
        (Option.getD (cacheFind ({} : ClientState).vessel_cache
            rawKinematicsReport.mmsi)
          (newVessel rawKinematicsReport (decide
            (rawKinematicsReport.mmsi ∈ AUTONOMOUS_SHIP_MMSI_LIST)))).speed) :=
  ⟨by decide,
    c2_course_speed_stored_raw {} {} rawKinematicsReport 5
      (by decide) (by decide)⟩

/-- Counterexample to C2 as stated: a report with Cog = 400 and
Sog = -5 is stored verbatim — the cached course is not in [0, 360) and
the cached speed is negative. -/
theorem c2_counterexample_unnormalised :
    cacheFind (handlePositionReport {} {} rawKinematicsReport
        5).vessel_cache "440326000" = some c2CachedVessel ∧
    ¬c2CachedVessel.course < 360 ∧
    ¬0 ≤ c2CachedVessel.speed := by
  refine ⟨by decide, ?_, ?_⟩
  · show ¬(400 : ℚ) < 360
    norm_num
  · show ¬(0 : ℚ) ≤ -5
    norm_num

/-- Claim C6 (amended): the queue size never exceeds the configured capacity,
and on overflow the handler drops the oldest entry and enqueues the new
record, but no statistic counts the discarded message — only
last_update changes. -/
theorem c6_drop_head (cfg : ClientConfig) (st : ClientState)
    (m : PositionReportMsg) (now : ℕ)
    (hN : 0 < cfg.max_queue_size)
    (hlen : st.message_queue.length ≤ cfg.max_queue_size) :
    (handlePositionReport cfg st m now).message_queue.length ≤
      cfg.max_queue_size ∧
    (admitsMessage cfg st m = true →
      isNullIsland (reportedPosition st m) = false →
      st.message_queue.length = cfg.max_queue_size →
      (handlePositionReport cfg st m now).message_queue =
          st.message_queue.drop 1 ++ [updatedVessel st m now] ∧
        (handlePositionReport cfg st m now).message_queue.length =
          cfg.max_queue_size ∧
        (handlePositionReport cfg st m now).stats =
          { st.stats with last_update := some now }) := by
  constructor
  · rcases handlePositionReport_queue_cases cfg st m now with h | h
    · rw [h]
      exact hlen
    · rw [h]
      exact queuePut_length_le _ _ _ hN hlen
  · intro hadm hval hfull
    rw [handlePositionReport_admitted cfg st m now hadm hval]
    dsimp only
    rw [queuePut_full _ _ _ hN hfull]
    refine ⟨rfl, ?_, rfl⟩
    simp only [List.length_append, List.length_drop, List.length_cons,
      List.length_nil]
    omega

/-- Witness for C6 (amended) at a full 2-slot queue. -/
theorem c6_drop_head_witness :
    0 < smallQueueConfig.max_queue_size ∧
    (handlePositionReport smallQueueConfig fullQueueState
        rawKinematicsReport 5).message_queue =
      fullQueueState.message_queue.drop 1 ++
        [updatedVessel fullQueueState rawKinematicsReport 5] ∧
    (handlePositionReport smallQueueConfig fullQueueState
        rawKinematicsReport 5).message_queue.length =
      smallQueueConfig.max_queue_size ∧
    (handlePositionReport smallQueueConfig fullQueueState
        rawKinematicsReport 5).stats =
      { fullQueueState.stats with last_update := some 5 } :=
  ⟨by decide,
    (c6_drop_head smallQueueConfig fullQueueState rawKinematicsReport 5
      (by decide) (by decide)).2 (by decide) (by decide) (by decide)⟩

/-- Counterexample to the "count the loss" part of C6 as stated: an
overflowing enqueue (full 2-slot queue) leaves every statistics counter
exactly as the same enqueue with a free slot does — the drop is not
recorded anywhere, and the head entry is gone. -/
theorem c6_counterexample_loss_not_counted :
    (handlePositionReport smallQueueConfig fullQueueState
        rawKinematicsReport 5).message_queue.length = 2 ∧
    (handlePositionReport smallQueueConfig fullQueueState
        rawKinematicsReport 5).message_queue.head? =
      some (sampleVessel "b" 2 2) ∧
    (handlePositionReport smallQueueConfig fullQueueState
        rawKinematicsReport 5).stats =
      (handlePositionReport smallQueueConfig freeQueueState
        rawKinematicsReport 5).stats := by
  refine ⟨by decide, by decide, by decide⟩

end Maritime
